import Mathlib

/-! Reference surface models of Boost.Geometry: `cs::model::spheroid` and `cs::model::sphere`.

A shallow embedding of `include/boost/geometry/core/cs_model.hpp`.

Conventions of the embedding.

* The template parameter `RadiusType` is a type parameter; nothing is assumed about it unless a
  theorem says so.
* A member function template `f<I>` becomes a function of the index `I : Nat`.  Its first line,
  `BOOST_STATIC_ASSERT(I < 3)`, decides at build time whether the instantiation `f<I>` exists.
  The embedding keeps that check: the result is an `Option`, `none` standing for "the
  instantiation is ill-formed, the program does not build" and `some r` for the value computed
  by the body.  Whether the result is `none` depends on `I` alone, never on the object.
* A mutating member (`set_radius`) becomes a function returning the object after the call.
* A floating literal of the source, and the `double` expression of the default constructor of
  `sphere`, are taken at their exact decimal (rational) value, and the functional cast
  `RadiusType(x)` is a parameter `of_double : ℚ → RadiusType` of the default constructors:
  the rounding of the argument to binary64 and its conversion to `RadiusType` both happen in
  `of_double`.  `float_of_double` and `double_of_double` are that cast for `RadiusType = float`
  and `RadiusType = double`, the values of either type being kept as rationals.
-/

namespace boost.geometry

/-- Modelled from the spec: the macro `BOOST_STATIC_ASSERT` of `boost/static_assert.hpp`, a
header outside `cs_model.hpp`.  The spec: the index "must be a value known at compile time
and `I < 3`; violation is a build-time failure, never a runtime error".  So the body that follows
the check is instantiated only when the compile-time condition `c` holds. -/
def BOOST_STATIC_ASSERT {α : Type} (c : Bool) (body : α) : Option α :=
  if c then some body else none

namespace cs.model

/-- The class template `spheroid<RadiusType>`: the private members `m_a` (equatorial radius) and
`m_b` (polar radius). -/
structure spheroid (RadiusType : Type) where
  m_a : RadiusType
  m_b : RadiusType
deriving DecidableEq

/-- The constructor `spheroid(RadiusType const& a, RadiusType const& b) : m_a(a), m_b(b)`. -/
def spheroid.ctor {RadiusType : Type} (a b : RadiusType) : spheroid RadiusType :=
  { m_a := a, m_b := b }

/-- The default constructor
`spheroid() : m_a(RadiusType(6378137.0)), m_b(RadiusType(6356752.314245))`. -/
def spheroid.ctor_default {RadiusType : Type} (of_double : ℚ → RadiusType) :
    spheroid RadiusType :=
  { m_a := of_double 6378137.0, m_b := of_double 6356752.314245 }

/-- The member `spheroid::get_radius<I>() const`. -/
def spheroid.get_radius {RadiusType : Type} (I : Nat) (s : spheroid RadiusType) :
    Option RadiusType :=
  BOOST_STATIC_ASSERT (decide (I < 3))
    (if I < 2 then s.m_a else s.m_b)

/-- The member `spheroid::set_radius<I>(RadiusType const& radius)`; the result is the object
after the call. -/
def spheroid.set_radius {RadiusType : Type} (I : Nat) (s : spheroid RadiusType)
    (radius : RadiusType) : Option (spheroid RadiusType) :=
  BOOST_STATIC_ASSERT (decide (I < 3))
    (if I < 2 then { s with m_a := radius } else { s with m_b := radius })

/-- The class template `sphere<RadiusType>`: the private member `m_r`. -/
structure sphere (RadiusType : Type) where
  m_r : RadiusType
deriving DecidableEq

/-- The constructor `explicit sphere(RadiusType const& r) : m_r(r)`. -/
def sphere.ctor {RadiusType : Type} (r : RadiusType) : sphere RadiusType :=
  { m_r := r }

/-- The default constructor
`sphere() : m_r(RadiusType((2.0 * 6378137.0 + 6356752.314245) / 3.0))`; the argument of the cast
is evaluated before the cast, in the arithmetic of the literals. -/
def sphere.ctor_default {RadiusType : Type} (of_double : ℚ → RadiusType) : sphere RadiusType :=
  { m_r := of_double ((2.0 * 6378137.0 + 6356752.314245) / 3.0) }

/-- The member `sphere::get_radius<I>() const`. -/
def sphere.get_radius {RadiusType : Type} (I : Nat) (s : sphere RadiusType) :
    Option RadiusType :=
  BOOST_STATIC_ASSERT (decide (I < 3)) s.m_r

/-- The member `sphere::set_radius<I>(RadiusType const& radius)`; the result is the object after
the call. -/
def sphere.set_radius {RadiusType : Type} (I : Nat) (s : sphere RadiusType)
    (radius : RadiusType) : Option (sphere RadiusType) :=
  BOOST_STATIC_ASSERT (decide (I < 3)) { s with m_r := radius }

end cs.model

namespace traits

open cs.model

/-- The static member `radius_access<cs::model::spheroid<RadiusType>, Dimension>::get(s)`. -/
def radius_access_spheroid.get {RadiusType : Type} (Dimension : Nat)
    (s : spheroid RadiusType) : Option RadiusType :=
  s.get_radius Dimension

/-- The static member `radius_access<cs::model::spheroid<RadiusType>, Dimension>::set(s, value)`;
the result is the object `s` refers to after the call. -/
def radius_access_spheroid.set {RadiusType : Type} (Dimension : Nat)
    (s : spheroid RadiusType) (value : RadiusType) : Option (spheroid RadiusType) :=
  s.set_radius Dimension value

/-- The static member `radius_access<cs::model::sphere<RadiusType>, Dimension>::get(s)`. -/
def radius_access_sphere.get {RadiusType : Type} (Dimension : Nat)
    (s : sphere RadiusType) : Option RadiusType :=
  s.get_radius Dimension

/-- The static member `radius_access<cs::model::sphere<RadiusType>, Dimension>::set(s, value)`;
the result is the object `s` refers to after the call. -/
def radius_access_sphere.set {RadiusType : Type} (Dimension : Nat)
    (s : sphere RadiusType) (value : RadiusType) : Option (sphere RadiusType) :=
  s.set_radius Dimension value

/-- Modelled from the spec: the category tags `reference_sphere_tag` and
`reference_spheroid_tag` of `boost/geometry/core/tags.hpp`, a header outside `cs_model.hpp`.
The spec: each participating type has "a category tag (one of `ReferenceSphereTag`,
`ReferenceSpheroidTag`)".  A tag is a value of this enumeration. -/
inductive reference_tag where
  | reference_sphere_tag
  | reference_spheroid_tag
deriving DecidableEq

/-- The member typedef `tag< cs::model::spheroid<RadiusType> >::type`. -/
def tag_spheroid.type (_RadiusType : Type) : reference_tag :=
  reference_tag.reference_spheroid_tag

/-- The member typedef `radius_type< cs::model::spheroid<RadiusType> >::type`. -/
def radius_type_spheroid.type (RadiusType : Type) : Type :=
  RadiusType

/-- The member typedef `tag< cs::model::sphere<RadiusType> >::type`. -/
def tag_sphere.type (_RadiusType : Type) : reference_tag :=
  reference_tag.reference_sphere_tag

/-- The member typedef `radius_type< cs::model::sphere<RadiusType> >::type`. -/
def radius_type_sphere.type (RadiusType : Type) : Type :=
  RadiusType

end traits

/-- Rounding of a rational to the nearest integer, ties to the even one (the IEEE-754 default
rounding direction). -/
def round_ties_even (q : ℚ) : ℤ :=
  if q - ⌊q⌋ < 1 / 2 then ⌊q⌋
  else if 1 / 2 < q - ⌊q⌋ then ⌊q⌋ + 1
  else if ⌊q⌋ % 2 = 0 then ⌊q⌋ else ⌊q⌋ + 1

/-- The binary floating-point value of precision `p` bits nearest to `q`, ties to even: with
`2 ^ e ≤ |q| < 2 ^ (e + 1)`, consecutive values are `2 ^ (e + 1 - p)` apart.  The exponent range
is not bounded (no overflow, no subnormals); `p = 53` is binary64, `p = 24` is binary32. -/
def round_binary (p : ℕ) (q : ℚ) : ℚ :=
  if q = 0 then 0
  else round_ties_even (q / 2 ^ (Int.log 2 |q| + 1 - p)) * 2 ^ (Int.log 2 |q| + 1 - p)

/-- The cast `RadiusType(x)` of a `double` expression `x` for `RadiusType = double`: the value
of `x` in binary64. -/
def double_of_double (q : ℚ) : ℚ :=
  round_binary 53 q

/-- The cast `RadiusType(x)` of a `double` expression `x` for `RadiusType = float`: the value of
`x` in binary64, converted to binary32. -/
def float_of_double (q : ℚ) : ℚ :=
  round_binary 24 (round_binary 53 q)

/-- The product `x * y` of two `float` values, in `float` arithmetic. -/
def float_mul (x y : ℚ) : ℚ :=
  round_binary 24 (x * y)

/-- The sum `x + y` of two `float` values, in `float` arithmetic. -/
def float_add (x y : ℚ) : ℚ :=
  round_binary 24 (x + y)

/-- The quotient `x / y` of two `float` values, in `float` arithmetic. -/
def float_div (x y : ℚ) : ℚ :=
  round_binary 24 (x / y)

open cs.model traits

/-! ## Evaluation lemmas -/

theorem static_assert_holds {α : Type} (I : Nat) (h : I < 3) (body : α) :
    BOOST_STATIC_ASSERT (decide (I < 3)) body = some body := by
  simp [BOOST_STATIC_ASSERT, h]

theorem static_assert_fails {α : Type} (I : Nat) (h : 3 ≤ I) (body : α) :
    BOOST_STATIC_ASSERT (decide (I < 3)) body = none := by
  have h' : ¬ I < 3 := Nat.not_lt.mpr h
  simp [BOOST_STATIC_ASSERT, h']

theorem sphere_ctor_default_get_radius_0 {RadiusType : Type} (of_double : ℚ → RadiusType) :
    (sphere.ctor_default of_double).get_radius 0
      = some (of_double ((2.0 * 6378137.0 + 6356752.314245) / 3.0)) :=
  rfl

theorem spheroid_ctor_default_get_radius_0 {RadiusType : Type} (of_double : ℚ → RadiusType) :
    (spheroid.ctor_default of_double).get_radius 0 = some (of_double 6378137.0) :=
  rfl

theorem spheroid_ctor_default_get_radius_2 {RadiusType : Type} (of_double : ℚ → RadiusType) :
    (spheroid.ctor_default of_double).get_radius 2 = some (of_double 6356752.314245) :=
  rfl

theorem round_ties_even_eq (q : ℚ) (n : ℤ) (h : |q - n| < 1 / 2) : round_ties_even q = n := by
  have h1 := (abs_lt.mp h).1
  have h2 := (abs_lt.mp h).2
  unfold round_ties_even
  by_cases hq : (n : ℚ) ≤ q
  · have hf : ⌊q⌋ = n := by
      rw [Int.floor_eq_iff]
      exact ⟨hq, by linarith⟩
    rw [hf, if_pos h2]
  · have hf : ⌊q⌋ = n - 1 := by
      rw [Int.floor_eq_iff]
      push_cast
      exact ⟨by linarith, by linarith [not_le.mp hq]⟩
    rw [hf]
    push_cast
    rw [if_neg (by linarith), if_pos (by linarith)]
    ring

theorem round_binary_eq (p : ℕ) (q : ℚ) (e n : ℤ) (ulp : ℚ) (hu : ulp = 2 ^ (e + 1 - (p : ℤ)))
    (h1 : (2 : ℚ) ^ e ≤ q) (h2 : q < (2 : ℚ) ^ (e + 1)) (hn : |q / ulp - n| < 1 / 2) :
    round_binary p q = n * ulp := by
  have hpos : 0 < q := lt_of_lt_of_le (zpow_pos (by norm_num) e) h1
  have hlog : Int.log 2 |q| = e := by
    rw [abs_of_pos hpos]
    have ha : e ≤ Int.log 2 q :=
      (Int.zpow_le_iff_le_log (by norm_num) hpos).mp (by exact_mod_cast h1)
    have hb : Int.log 2 q < e + 1 :=
      (Int.lt_zpow_iff_log_lt (by norm_num) hpos).mp (by exact_mod_cast h2)
    omega
  unfold round_binary
  rw [if_neg (ne_of_gt hpos), hlog, ← hu, round_ties_even_eq _ n hn]

theorem double_of_double_a : double_of_double 6378137.0 = 6378137 := by
  have h := round_binary_eq 53 6378137.0 22 6848472456101888 (1 / 2 ^ 30) (by norm_num)
    (by norm_num) (by norm_num) (by rw [abs_lt]; constructor <;> norm_num)
  unfold double_of_double
  rw [h]; norm_num

theorem double_of_double_b :
    double_of_double 6356752.314245 = 6825510824613647 / 2 ^ 30 := by
  have h := round_binary_eq 53 6356752.314245 22 6825510824613647 (1 / 2 ^ 30) (by norm_num)
    (by norm_num) (by norm_num) (by rw [abs_lt]; constructor <;> norm_num)
  unfold double_of_double
  rw [h]; norm_num

theorem double_of_double_mean :
    double_of_double ((2.0 * 6378137.0 + 6356752.314245) / 3.0)
      = 6840818578939141 / 2 ^ 30 := by
  have h := round_binary_eq 53 ((2.0 * 6378137.0 + 6356752.314245) / 3.0) 22 6840818578939141
    (1 / 2 ^ 30) (by norm_num) (by norm_num) (by norm_num)
    (by rw [abs_lt]; constructor <;> norm_num)
  unfold double_of_double
  rw [h]; norm_num

theorem float_of_double_a : float_of_double 6378137.0 = 6378137 := by
  have h := round_binary_eq 24 6378137 22 12756274 (1 / 2) (by norm_num)
    (by norm_num) (by norm_num) (by rw [abs_lt]; constructor <;> norm_num)
  have hd := double_of_double_a
  unfold double_of_double at hd
  unfold float_of_double
  rw [hd, h]; norm_num

theorem float_of_double_b : float_of_double 6356752.314245 = 12713505 / 2 := by
  have h := round_binary_eq 24 (6825510824613647 / 2 ^ 30) 22 12713505 (1 / 2) (by norm_num)
    (by norm_num) (by norm_num) (by rw [abs_lt]; constructor <;> norm_num)
  have hd := double_of_double_b
  unfold double_of_double at hd
  unfold float_of_double
  rw [hd, h]; norm_num

theorem float_of_double_mean :
    float_of_double ((2.0 * 6378137.0 + 6356752.314245) / 3.0) = 6371009 := by
  have h := round_binary_eq 24 (6840818578939141 / 2 ^ 30) 22 12742018 (1 / 2) (by norm_num)
    (by norm_num) (by norm_num) (by rw [abs_lt]; constructor <;> norm_num)
  have hd := double_of_double_mean
  unfold double_of_double at hd
  unfold float_of_double
  rw [hd, h]; norm_num

theorem float_mean_of_defaults :
    float_div (float_add (float_mul 2 6378137) (12713505 / 2)) 3 = 12742017 / 2 := by
  have hm : float_mul 2 6378137 = 12756274 := by
    have h := round_binary_eq 24 (2 * 6378137) 23 12756274 1 (by norm_num)
      (by norm_num) (by norm_num) (by rw [abs_lt]; constructor <;> norm_num)
    unfold float_mul
    rw [h]; norm_num
  have ha : float_add 12756274 (12713505 / 2) = 19113026 := by
    have h := round_binary_eq 24 (12756274 + 12713505 / 2) 24 9556513 2 (by norm_num)
      (by norm_num) (by norm_num) (by rw [abs_lt]; constructor <;> norm_num)
    unfold float_add
    rw [h]; norm_num
  have hd : float_div 19113026 3 = 12742017 / 2 := by
    have h := round_binary_eq 24 (19113026 / 3) 22 12742017 (1 / 2) (by norm_num)
      (by norm_num) (by norm_num) (by rw [abs_lt]; constructor <;> norm_num)
    unfold float_div
    rw [h]; norm_num
  rw [hm, ha, hd]

/-! ## The spheroid model -/

/-- C1: for all radius values `a` and `b`, with no condition relating them, the spheroid
constructed as `spheroid(a, b)` returns `a` from `get_radius<0>`, `a` from `get_radius<1>` and
`b` from `get_radius<2>`. -/
theorem spheroid_ctor_get_radius {RadiusType : Type} (a b : RadiusType) :
    (spheroid.ctor a b).get_radius 0 = some a
      ∧ (spheroid.ctor a b).get_radius 1 = some a
      ∧ (spheroid.ctor a b).get_radius 2 = some b :=
  ⟨rfl, rfl, rfl⟩

/-- C2: for every spheroid `s` and every value `x`, the call `s.set_radius<0>(x)` completes, and
in the object after the call `get_radius<0>()` and `get_radius<1>()` both return `x` while
`get_radius<2>()` returns what it returned before the call. -/
theorem spheroid_set_radius_0 {RadiusType : Type} (s : spheroid RadiusType) (x : RadiusType) :
    ∃ s', s.set_radius 0 x = some s'
      ∧ s'.get_radius 0 = some x
      ∧ s'.get_radius 1 = some x
      ∧ s'.get_radius 2 = s.get_radius 2 :=
  ⟨{ s with m_a := x }, rfl, rfl, rfl, rfl⟩

/-- C3: for every spheroid `s` and every value `y`, the call `s.set_radius<2>(y)` completes, and
in the object after the call `get_radius<2>()` returns `y` while `get_radius<0>()` and
`get_radius<1>()` return what they returned before the call. -/
theorem spheroid_set_radius_2 {RadiusType : Type} (s : spheroid RadiusType) (y : RadiusType) :
    ∃ s', s.set_radius 2 y = some s'
      ∧ s'.get_radius 2 = some y
      ∧ s'.get_radius 0 = s.get_radius 0
      ∧ s'.get_radius 1 = s.get_radius 1 :=
  ⟨{ s with m_b := y }, rfl, rfl, rfl, rfl⟩

/-! ## The sphere model -/

/-- C4: for every radius value `r` and every index `I` in {0,1,2}, the sphere constructed as
`sphere(r)` returns `r` from `get_radius<I>()`; in particular `get_radius<0>()`,
`get_radius<1>()` and `get_radius<2>()` all return `r`. -/
theorem sphere_ctor_get_radius {RadiusType : Type} (r : RadiusType) (I : Nat) (hI : I < 3) :
    (sphere.ctor r).get_radius I = some r
      ∧ (sphere.ctor r).get_radius 0 = some r
      ∧ (sphere.ctor r).get_radius 1 = some r
      ∧ (sphere.ctor r).get_radius 2 = some r :=
  ⟨static_assert_holds I hI r, rfl, rfl, rfl⟩

theorem sphere_ctor_get_radius_witness :
    (1 < 3) ∧ ((sphere.ctor (7 : ℤ)).get_radius 1 = some 7
      ∧ (sphere.ctor (7 : ℤ)).get_radius 0 = some 7
      ∧ (sphere.ctor (7 : ℤ)).get_radius 1 = some 7
      ∧ (sphere.ctor (7 : ℤ)).get_radius 2 = some 7) :=
  ⟨by decide, sphere_ctor_get_radius (7 : ℤ) 1 (by decide)⟩

/-- C5: for every sphere `s`, every index `I` in {0,1,2} and every value `x`, the call
`s.set_radius<I>(x)` completes, and in the object after the call `get_radius<0>()`,
`get_radius<1>()` and `get_radius<2>()` all return `x`; the object after the call is the same
whichever of the three indices was used. -/
theorem sphere_set_radius_any {RadiusType : Type} (s : sphere RadiusType) (I : Nat) (hI : I < 3)
    (x : RadiusType) :
    (∃ s', s.set_radius I x = some s'
      ∧ s'.get_radius 0 = some x
      ∧ s'.get_radius 1 = some x
      ∧ s'.get_radius 2 = some x)
      ∧ s.set_radius I x = s.set_radius 0 x
      ∧ s.set_radius I x = s.set_radius 1 x
      ∧ s.set_radius I x = s.set_radius 2 x := by
  have h : ∀ J, J < 3 → s.set_radius J x = some { s with m_r := x } :=
    fun J hJ => static_assert_holds J hJ _
  refine ⟨⟨{ s with m_r := x }, h I hI, rfl, rfl, rfl⟩, ?_, ?_, ?_⟩
  · rw [h I hI, h 0 (by decide)]
  · rw [h I hI, h 1 (by decide)]
  · rw [h I hI, h 2 (by decide)]

theorem sphere_set_radius_any_witness :
    (2 < 3) ∧ ((∃ s', (sphere.ctor (7 : ℤ)).set_radius 2 9 = some s'
      ∧ s'.get_radius 0 = some 9
      ∧ s'.get_radius 1 = some 9
      ∧ s'.get_radius 2 = some 9)
      ∧ (sphere.ctor (7 : ℤ)).set_radius 2 9 = (sphere.ctor (7 : ℤ)).set_radius 0 9
      ∧ (sphere.ctor (7 : ℤ)).set_radius 2 9 = (sphere.ctor (7 : ℤ)).set_radius 1 9
      ∧ (sphere.ctor (7 : ℤ)).set_radius 2 9 = (sphere.ctor (7 : ℤ)).set_radius 2 9) :=
  ⟨by decide, sphere_set_radius_any (sphere.ctor (7 : ℤ)) 2 (by decide) 9⟩

/-! ## Both models -/

/-- C6: round trip.  For a spheroid `m` and a sphere `p` in any state, every index `i` in
{0,1,2} and every value `v`: the call `set_radius<i>(v)` completes, and `get_radius<i>()` on the
object after the call returns `v`. -/
theorem set_radius_get_radius_round_trip {RadiusType : Type} (m : spheroid RadiusType)
    (p : sphere RadiusType) (i : Nat) (hi : i < 3) (v : RadiusType) :
    (∃ m', m.set_radius i v = some m' ∧ m'.get_radius i = some v)
      ∧ (∃ p', p.set_radius i v = some p' ∧ p'.get_radius i = some v) := by
  refine ⟨?_, ⟨{ p with m_r := v }, static_assert_holds i hi _, static_assert_holds i hi _⟩⟩
  interval_cases i
  · exact ⟨{ m with m_a := v }, rfl, rfl⟩
  · exact ⟨{ m with m_a := v }, rfl, rfl⟩
  · exact ⟨{ m with m_b := v }, rfl, rfl⟩

theorem set_radius_get_radius_round_trip_witness :
    (1 < 3) ∧ ((∃ m', (spheroid.ctor (3 : ℤ) 4).set_radius 1 8 = some m'
        ∧ m'.get_radius 1 = some 8)
      ∧ (∃ p', (sphere.ctor (5 : ℤ)).set_radius 1 8 = some p' ∧ p'.get_radius 1 = some 8)) :=
  ⟨by decide,
    set_radius_get_radius_round_trip (spheroid.ctor (3 : ℤ) 4) (sphere.ctor (5 : ℤ)) 1
      (by decide) 8⟩

/-- C7: the registry is a pure forwarder.  For a spheroid `s`, a sphere `p`, every index `D`
(in particular every `D` in {0,1,2}) and every value `v`: `radius_access<Model, D>::get`
returns exactly what `get_radius<D>()` returns, and `radius_access<Model, D>::set` leaves the
object in exactly the state `set_radius<D>(v)` leaves it in; for `D` in {0,1,2} all of these
complete. -/
theorem radius_access_forwards {RadiusType : Type} (s : spheroid RadiusType)
    (p : sphere RadiusType) (D : Nat) (v : RadiusType) :
    radius_access_spheroid.get D s = s.get_radius D
      ∧ radius_access_spheroid.set D s v = s.set_radius D v
      ∧ radius_access_sphere.get D p = p.get_radius D
      ∧ radius_access_sphere.set D p v = p.set_radius D v
      ∧ (D < 3 ↔ (radius_access_spheroid.get D s).isSome = true)
      ∧ (D < 3 ↔ (radius_access_spheroid.set D s v).isSome = true)
      ∧ (D < 3 ↔ (radius_access_sphere.get D p).isSome = true)
      ∧ (D < 3 ↔ (radius_access_sphere.set D p v).isSome = true) := by
  refine ⟨rfl, rfl, rfl, rfl, ?_, ?_, ?_, ?_⟩ <;>
    by_cases h : D < 3 <;>
    simp [radius_access_spheroid.get, radius_access_spheroid.set, radius_access_sphere.get,
      radius_access_sphere.set, spheroid.get_radius, spheroid.set_radius, sphere.get_radius,
      sphere.set_radius, BOOST_STATIC_ASSERT, h]

/-! ## Default construction -/

/-- C8: the default-constructed spheroid equals `spheroid(6378137.0, 6356752.314245)`: for every
cast `of_double` into the radius type, `get_radius<0>()` and `get_radius<1>()` return the cast of
6378137.0 and `get_radius<2>()` returns the cast of 6356752.314245, these being the exact
decimal constants 6378137 and 6356752314245 / 1000000. -/
theorem spheroid_ctor_default_wgs84 {RadiusType : Type} (of_double : ℚ → RadiusType) :
    spheroid.ctor_default of_double
        = spheroid.ctor (of_double 6378137.0) (of_double 6356752.314245)
      ∧ (spheroid.ctor_default of_double).get_radius 0 = some (of_double 6378137.0)
      ∧ (spheroid.ctor_default of_double).get_radius 1 = some (of_double 6378137.0)
      ∧ (spheroid.ctor_default of_double).get_radius 2 = some (of_double 6356752.314245)
      ∧ (spheroid.ctor_default of_double).get_radius 0 = some (of_double 6378137)
      ∧ (spheroid.ctor_default of_double).get_radius 2
          = some (of_double (6356752314245 / 1000000)) := by
  have ha : (6378137.0 : ℚ) = 6378137 := by norm_num
  have hb : (6356752.314245 : ℚ) = 6356752314245 / 1000000 := by norm_num
  refine ⟨rfl, rfl, rfl, rfl, ?_, ?_⟩
  · rw [← ha]; rfl
  · rw [← hb]; rfl

/-- C9, as amended: the default-constructed sphere equals
`sphere(RadiusType((2*6378137.0 + 6356752.314245)/3))` for every cast into the radius type.  The
radius it returns at every index `I` in {0,1,2} is the cast of `(2*a + b)/3`, where `a` and `b`
are the constants whose casts the default-constructed spheroid returns from `get_radius<0>()`
and `get_radius<2>()`; the argument of the cast is 19113026.314245 / 3.  The mean is taken
before the cast, not from the values the spheroid returns. -/
theorem sphere_ctor_default_cast_of_mean {RadiusType : Type} (of_double : ℚ → RadiusType)
    (I : Nat) (hI : I < 3) :
    sphere.ctor_default of_double
        = sphere.ctor (of_double ((2 * 6378137.0 + 6356752.314245) / 3))
      ∧ (∃ a b : ℚ,
          (spheroid.ctor_default of_double).get_radius 0 = some (of_double a)
            ∧ (spheroid.ctor_default of_double).get_radius 2 = some (of_double b)
            ∧ a = 6378137.0 ∧ b = 6356752.314245
            ∧ (sphere.ctor_default of_double).get_radius I
                = some (of_double ((2 * a + b) / 3)))
      ∧ (sphere.ctor_default of_double).get_radius I
          = some (of_double (19113026.314245 / 3)) := by
  have hget : (sphere.ctor_default of_double).get_radius I
      = some (of_double ((2.0 * 6378137.0 + 6356752.314245) / 3.0)) :=
    static_assert_holds I hI _
  have h : ((2.0 * 6378137.0 + 6356752.314245) / 3.0 : ℚ)
      = (2 * 6378137.0 + 6356752.314245) / 3 := by norm_num
  have h' : ((2.0 * 6378137.0 + 6356752.314245) / 3.0 : ℚ) = 19113026.314245 / 3 := by
    norm_num
  refine ⟨?_, ⟨6378137.0, 6356752.314245, rfl, rfl, rfl, rfl, ?_⟩, ?_⟩
  · unfold sphere.ctor_default
    rw [h]; rfl
  · rw [hget, h]
  · rw [hget, h']

theorem sphere_ctor_default_cast_of_mean_witness :
    (1 < 3) ∧ (sphere.ctor_default float_of_double
        = sphere.ctor (float_of_double ((2 * 6378137.0 + 6356752.314245) / 3))
      ∧ (∃ a b : ℚ,
          (spheroid.ctor_default float_of_double).get_radius 0 = some (float_of_double a)
            ∧ (spheroid.ctor_default float_of_double).get_radius 2 = some (float_of_double b)
            ∧ a = 6378137.0 ∧ b = 6356752.314245
            ∧ (sphere.ctor_default float_of_double).get_radius 1
                = some (float_of_double ((2 * a + b) / 3)))
      ∧ (sphere.ctor_default float_of_double).get_radius 1
          = some (float_of_double (19113026.314245 / 3))) :=
  ⟨by decide, sphere_ctor_default_cast_of_mean float_of_double 1 (by decide)⟩

/-- C9, as first stated, fails for `RadiusType = float`.  The default-constructed
`sphere<float>` returns 6371009 from `get_radius<0>()`, while the default-constructed
`spheroid<float>` returns `A = 6378137` and `B = 6356752.5`, for which `(2*A + B)/3` is
6371008.5 in `float` arithmetic and 38226053 / 6 in exact arithmetic: the radius is not
`(2*A + B)/3` under either reading.  For `RadiusType = double` the radius returned is
6840818578939141 / 2^30, not 19113026.314245 / 3. -/
theorem sphere_ctor_default_float_counterexample :
    (sphere.ctor_default float_of_double).get_radius 0 = some 6371009
      ∧ (spheroid.ctor_default float_of_double).get_radius 0 = some 6378137
      ∧ (spheroid.ctor_default float_of_double).get_radius 2 = some (12713505 / 2)
      ∧ float_div (float_add (float_mul 2 6378137) (12713505 / 2)) 3 = 12742017 / 2
      ∧ ¬ (∀ I, I < 3 → ∃ A B : ℚ,
            (spheroid.ctor_default float_of_double).get_radius 0 = some A
              ∧ (spheroid.ctor_default float_of_double).get_radius 2 = some B
              ∧ (sphere.ctor_default float_of_double).get_radius I
                  = some (float_div (float_add (float_mul 2 A) B) 3))
      ∧ ¬ (∀ I, I < 3 → ∃ A B : ℚ,
            (spheroid.ctor_default float_of_double).get_radius 0 = some A
              ∧ (spheroid.ctor_default float_of_double).get_radius 2 = some B
              ∧ (sphere.ctor_default float_of_double).get_radius I = some ((2 * A + B) / 3))
      ∧ (sphere.ctor_default double_of_double).get_radius 0
          = some (6840818578939141 / 2 ^ 30)
      ∧ (sphere.ctor_default double_of_double).get_radius 0
          ≠ some (19113026.314245 / 3) := by
  have hS : (sphere.ctor_default float_of_double).get_radius 0 = some 6371009 := by
    rw [sphere_ctor_default_get_radius_0, float_of_double_mean]
  have hA : (spheroid.ctor_default float_of_double).get_radius 0 = some 6378137 := by
    rw [spheroid_ctor_default_get_radius_0, float_of_double_a]
  have hB : (spheroid.ctor_default float_of_double).get_radius 2 = some (12713505 / 2) := by
    rw [spheroid_ctor_default_get_radius_2, float_of_double_b]
  have hD : (sphere.ctor_default double_of_double).get_radius 0
      = some (6840818578939141 / 2 ^ 30) := by
    rw [sphere_ctor_default_get_radius_0, double_of_double_mean]
  refine ⟨hS, hA, hB, float_mean_of_defaults, ?_, ?_, hD, ?_⟩
  · intro h
    obtain ⟨A, B, h1, h2, h3⟩ := h 0 (by decide)
    rw [hA] at h1
    rw [hB] at h2
    rw [hS, ← Option.some.inj h1, ← Option.some.inj h2, float_mean_of_defaults] at h3
    have h4 := Option.some.inj h3
    norm_num at h4
  · intro h
    obtain ⟨A, B, h1, h2, h3⟩ := h 0 (by decide)
    rw [hA] at h1
    rw [hB] at h2
    rw [hS, ← Option.some.inj h1, ← Option.some.inj h2] at h3
    have h4 := Option.some.inj h3
    norm_num at h4
  · rw [hD]
    intro h
    have h4 := Option.some.inj h
    norm_num at h4

/-! ## Static index bounds -/

/-- C10: index bounds are enforced statically.  For a spheroid `s`, a sphere `p`, every index
`I` and every value `v`: each of `get_radius<I>` and `set_radius<I>` completes with a result
exactly when `I < 3`, and is rejected by the static assertion exactly when `3 ≤ I` (there is no
third outcome); in particular all four are rejected at `I = 3`. -/
theorem index_bounds_static {RadiusType : Type} (s : spheroid RadiusType)
    (p : sphere RadiusType) (I : Nat) (v : RadiusType) :
    ((∃ r, s.get_radius I = some r) ↔ I < 3)
      ∧ ((∃ s', s.set_radius I v = some s') ↔ I < 3)
      ∧ ((∃ r, p.get_radius I = some r) ↔ I < 3)
      ∧ ((∃ p', p.set_radius I v = some p') ↔ I < 3)
      ∧ (s.get_radius I = none ↔ 3 ≤ I)
      ∧ (s.set_radius I v = none ↔ 3 ≤ I)
      ∧ (p.get_radius I = none ↔ 3 ≤ I)
      ∧ (p.set_radius I v = none ↔ 3 ≤ I)
      ∧ s.get_radius 3 = none
      ∧ s.set_radius 3 v = none
      ∧ p.get_radius 3 = none
      ∧ p.set_radius 3 v = none := by
  have hsome : ∀ {α : Type} (body : α),
      (∃ r, BOOST_STATIC_ASSERT (decide (I < 3)) body = some r) ↔ I < 3 := by
    intro α body
    constructor
    · rintro ⟨r, hr⟩
      by_contra hn
      rw [static_assert_fails I (Nat.le_of_not_lt hn) body] at hr
      exact Option.noConfusion hr
    · intro h
      exact ⟨body, static_assert_holds I h body⟩
  have hnone : ∀ {α : Type} (body : α),
      BOOST_STATIC_ASSERT (decide (I < 3)) body = none ↔ 3 ≤ I := by
    intro α body
    constructor
    · intro hr
      by_contra hn
      rw [static_assert_holds I (Nat.lt_of_not_le hn) body] at hr
      exact Option.noConfusion hr
    · intro h
      exact static_assert_fails I h body
  exact ⟨hsome _, hsome _, hsome _, hsome _, hnone _, hnone _, hnone _, hnone _,
    rfl, rfl, rfl, rfl⟩

/-! ## Aliasing of the indices -/

/-- C11: on a spheroid, setting index 0 and setting index 1 are observably identical: for every
spheroid `s` and every value `x` both calls complete and leave the same object, so every
`get_radius<J>()`, `J` in {0,1,2}, returns the same value after either. -/
theorem spheroid_set_radius_0_eq_1 {RadiusType : Type} (s : spheroid RadiusType)
    (x : RadiusType) :
    ∃ s0 s1, s.set_radius 0 x = some s0
      ∧ s.set_radius 1 x = some s1
      ∧ s0 = s1
      ∧ s0.get_radius 0 = s1.get_radius 0
      ∧ s0.get_radius 1 = s1.get_radius 1
      ∧ s0.get_radius 2 = s1.get_radius 2 :=
  ⟨{ s with m_a := x }, { s with m_a := x }, rfl, rfl, rfl, rfl, rfl, rfl⟩

/-- C12: capability classification.  For all radius types `R` and `R'`: the registered tag of
`spheroid<R>` is the reference-spheroid tag, that of `sphere<R>` is the reference-sphere tag,
the two tags differ (so a spheroid and a sphere are never classified alike, whatever their
radius types), and the registered radius type of `spheroid<R>` and of `sphere<R>` is `R`. -/
theorem tag_and_radius_type_registered (R R' : Type) :
    tag_spheroid.type R = reference_tag.reference_spheroid_tag
      ∧ tag_sphere.type R = reference_tag.reference_sphere_tag
      ∧ reference_tag.reference_spheroid_tag ≠ reference_tag.reference_sphere_tag
      ∧ tag_spheroid.type R ≠ tag_sphere.type R'
      ∧ radius_type_spheroid.type R = R
      ∧ radius_type_sphere.type R = R := by
  refine ⟨rfl, rfl, ?_, ?_, rfl, rfl⟩
  · intro h; exact reference_tag.noConfusion h
  · intro h; exact reference_tag.noConfusion h

/-- C13: a spheroid is determined by one equatorial and one polar write, in either order: for
every spheroid `s` and all values `x`, `y`, performing `set_radius<0>(x)` then
`set_radius<2>(y)` completes and yields the object `spheroid(x, y)`, and so does performing
`set_radius<2>(y)` then `set_radius<0>(x)`. -/
theorem spheroid_set_radius_0_2_commute {RadiusType : Type} (s : spheroid RadiusType)
    (x y : RadiusType) :
    (s.set_radius 0 x).bind (fun t => t.set_radius 2 y) = some (spheroid.ctor x y)
      ∧ (s.set_radius 2 y).bind (fun t => t.set_radius 0 x) = some (spheroid.ctor x y)
      ∧ (s.set_radius 0 x).bind (fun t => t.set_radius 2 y)
          = (s.set_radius 2 y).bind (fun t => t.set_radius 0 x) :=
  ⟨rfl, rfl, rfl⟩

/-- C14: writing back what was read changes nothing: for a spheroid `m` and a sphere `p` in any
state and every index `I` in {0,1,2}, `get_radius<I>()` completes with a value, and
`set_radius<I>` of that value completes and leaves the object exactly as it was. -/
theorem set_radius_of_get_radius {RadiusType : Type} (m : spheroid RadiusType)
    (p : sphere RadiusType) (I : Nat) (hI : I < 3) :
    (∃ v, m.get_radius I = some v ∧ m.set_radius I v = some m)
      ∧ (∃ w, p.get_radius I = some w ∧ p.set_radius I w = some p) := by
  refine ⟨?_, ⟨p.m_r, static_assert_holds I hI _, static_assert_holds I hI _⟩⟩
  interval_cases I
  · exact ⟨m.m_a, rfl, rfl⟩
  · exact ⟨m.m_a, rfl, rfl⟩
  · exact ⟨m.m_b, rfl, rfl⟩

theorem set_radius_of_get_radius_witness :
    (2 < 3) ∧ ((∃ v, (spheroid.ctor (3 : ℤ) 4).get_radius 2 = some v
        ∧ (spheroid.ctor (3 : ℤ) 4).set_radius 2 v = some (spheroid.ctor (3 : ℤ) 4))
      ∧ (∃ w, (sphere.ctor (5 : ℤ)).get_radius 2 = some w
        ∧ (sphere.ctor (5 : ℤ)).set_radius 2 w = some (sphere.ctor (5 : ℤ)))) :=
  ⟨by decide, set_radius_of_get_radius (spheroid.ctor (3 : ℤ) 4) (sphere.ctor (5 : ℤ)) 2
    (by decide)⟩

/-- C15: a sphere and the degenerate spheroid agree on reads and diverge on writes.  For every
`r` and every `J` in {0,1,2}, `sphere(r).get_radius<J>()` and `spheroid(r, r).get_radius<J>()`
return the same value, `r`.  For every `r`, `x` and `I` in {0,1,2}, `set_radius<I>(x)` completes
on both `sphere(r)` and `spheroid(r, r)`, and the two objects after the call agree on
`get_radius<J>()` for all `J` in {0,1,2} if and only if `x = r`. -/
theorem sphere_vs_degenerate_spheroid {RadiusType : Type} (r x : RadiusType) (I : Nat)
    (hI : I < 3) :
    (∀ J, J < 3 → (sphere.ctor r).get_radius J = some r
        ∧ (spheroid.ctor r r).get_radius J = some r)
      ∧ ∃ p' s', (sphere.ctor r).set_radius I x = some p'
          ∧ (spheroid.ctor r r).set_radius I x = some s'
          ∧ ((∀ J, J < 3 → p'.get_radius J = s'.get_radius J) ↔ x = r) := by
  constructor
  · intro J hJ
    interval_cases J <;> exact ⟨rfl, rfl⟩
  · interval_cases I
    · refine ⟨{ m_r := x }, { m_a := x, m_b := r }, rfl, rfl, ?_, ?_⟩
      · intro h
        exact Option.some.inj (h 2 (by decide))
      · intro h J hJ
        subst h
        interval_cases J <;> rfl
    · refine ⟨{ m_r := x }, { m_a := x, m_b := r }, rfl, rfl, ?_, ?_⟩
      · intro h
        exact Option.some.inj (h 2 (by decide))
      · intro h J hJ
        subst h
        interval_cases J <;> rfl
    · refine ⟨{ m_r := x }, { m_a := r, m_b := x }, rfl, rfl, ?_, ?_⟩
      · intro h
        exact Option.some.inj (h 0 (by decide))
      · intro h J hJ
        subst h
        interval_cases J <;> rfl

theorem sphere_vs_degenerate_spheroid_witness :
    (0 < 3) ∧ ((∀ J, J < 3 → (sphere.ctor (5 : ℤ)).get_radius J = some 5
        ∧ (spheroid.ctor (5 : ℤ) 5).get_radius J = some 5)
      ∧ ∃ p' s', (sphere.ctor (5 : ℤ)).set_radius 0 6 = some p'
          ∧ (spheroid.ctor (5 : ℤ) 5).set_radius 0 6 = some s'
          ∧ ((∀ J, J < 3 → p'.get_radius J = s'.get_radius J) ↔ (6 : ℤ) = 5)) :=
  ⟨by decide, sphere_vs_degenerate_spheroid (5 : ℤ) 6 0 (by decide)⟩

/-- C16: last write wins per stored field.  For a sphere `p` and all indices `K`, `L` in
{0,1,2}, and for a spheroid `m` and indices `I`, `J` that are both in {0,1} or both equal to 2:
`set_radius` at the second index with `v` completes on the object as it is, and performing
`set_radius` at the first index with `u` and then at the second with `v` leaves that same
object. -/
theorem last_write_wins {RadiusType : Type} (m : spheroid RadiusType) (p : sphere RadiusType)
    (u v : RadiusType) (I J : Nat) (hIJ : (I < 2 ∧ J < 2) ∨ (I = 2 ∧ J = 2)) (K L : Nat)
    (hK : K < 3) (hL : L < 3) :
    (∃ m', m.set_radius J v = some m'
        ∧ (m.set_radius I u).bind (fun t => t.set_radius J v) = some m')
      ∧ (∃ p', p.set_radius L v = some p'
        ∧ (p.set_radius K u).bind (fun t => t.set_radius L v) = some p') := by
  constructor
  · rcases hIJ with ⟨hI, hJ⟩ | ⟨hI, hJ⟩
    · interval_cases I <;> interval_cases J <;> exact ⟨{ m with m_a := v }, rfl, rfl⟩
    · subst hI; subst hJ
      exact ⟨{ m with m_b := v }, rfl, rfl⟩
  · refine ⟨{ p with m_r := v }, static_assert_holds L hL _, ?_⟩
    have h1 : p.set_radius K u = some { p with m_r := u } := static_assert_holds K hK _
    rw [h1]
    exact static_assert_holds L hL _

theorem last_write_wins_witness :
    ((0 < 2 ∧ 1 < 2) ∨ (0 = 2 ∧ 1 = 2)) ∧ (2 < 3) ∧ (0 < 3)
      ∧ ((∃ m', (spheroid.ctor (3 : ℤ) 4).set_radius 1 9 = some m'
          ∧ ((spheroid.ctor (3 : ℤ) 4).set_radius 0 8).bind (fun t => t.set_radius 1 9)
              = some m')
        ∧ (∃ p', (sphere.ctor (5 : ℤ)).set_radius 0 9 = some p'
          ∧ ((sphere.ctor (5 : ℤ)).set_radius 2 8).bind (fun t => t.set_radius 0 9)
              = some p')) :=
  ⟨by decide, by decide, by decide,
    last_write_wins (spheroid.ctor (3 : ℤ) 4) (sphere.ctor (5 : ℤ)) 8 9 0 1 (by decide) 2 0
      (by decide) (by decide)⟩

end boost.geometry
